import Mathlib

/-!
Shallow embedding of the Trading-Bot repository's `src/bot.py` (class
`BasicBot`).  Python floats are modelled as rationals, the binance
exchange client as a record of request/response functions
(`Except` captures raised exceptions), keyword arguments as a record of
optional fields, and the logger as an explicit list of emitted log lines.
Each placement operation additionally records the list of
`futures_create_order` calls it issued, and the validator records how
many `futures_exchange_info` lookups it performed, so that claims about
call counts can be stated.
-/

namespace TradingBot

/-- An order record as returned by the exchange (`dict` in the source);
only its identity matters to the bot, which passes it through unchanged. -/
structure OrderRecord where
  orderId : Nat
  status : String
deriving DecidableEq, Repr

/-- The three exception categories the placement code distinguishes:
`BinanceAPIException`, `BinanceOrderException`, and any other `Exception`. -/
inductive ExcKind where
  | apiError (msg : String)
  | orderError (msg : String)
  | otherError (msg : String)
deriving DecidableEq, Repr

/-- The keyword arguments of one `futures_create_order` call.
`none` in an optional field means the keyword was not passed. -/
structure CreateOrderParams where
  symbol : String
  side : String
  type : String
  quantity : ℚ
  price : Option ℚ
  stopPrice : Option ℚ
  timeInForce : Option String
deriving DecidableEq, Repr

/-- One entry of the `futures_account_balance` response:
a `{asset, balance}` record. -/
structure BalanceEntry where
  asset : String
  balance : ℚ
deriving DecidableEq, Repr

/-- The external exchange client (`self.client`), as the request/response
contract the bot consumes.  An `Except.error` models the call raising. -/
structure Client where
  futures_exchange_info : Except String (List String)
  futures_create_order : CreateOrderParams → Except ExcKind OrderRecord
  futures_account_balance : Except String (List BalanceEntry)
  futures_get_order : String → Nat → Except String OrderRecord

/-- The `**kwargs` accepted by `validate_inputs` / `place_order`:
optional `price` and `stop_price` keys. -/
structure Kwargs where
  price : Option ℚ
  stop_price : Option ℚ
deriving DecidableEq, Repr

/-- Result of one run of `validate_inputs`: the returned boolean, the
number of `futures_exchange_info` lookups made, and the log lines emitted. -/
structure ValidationRun where
  result : Bool
  lookupCalls : Nat
  logs : List String
deriving DecidableEq, Repr

/-- Result of one run of a placement operation or of `place_order`: the
returned value (`none` models Python `None`), the list of
`futures_create_order` calls issued, and the log lines emitted. -/
structure DispatchRun where
  result : Option OrderRecord
  calls : List CreateOrderParams
  logs : List String
deriving DecidableEq, Repr

/-- Python `str.upper()`: upper-case every character of the string
(ASCII suffices for the side and order-type vocabulary in play). -/
def strUpper (s : String) : String := ⟨s.data.map Char.toUpper⟩

def valid_sides : List String := ["BUY", "SELL"]

def valid_types : List String := ["MARKET", "LIMIT", "STOP_LIMIT"]

/-- `'price' not in kwargs or kwargs['price'] <= 0` -/
def priceMissingOrNonpos (p : Option ℚ) : Bool :=
  match p with
  | none => true
  | some v => decide (v ≤ 0)

/-- `validate_inputs` of `src/bot.py` (lines 46–98): checks side, order
type, quantity, symbol existence (one exchange-info lookup), then the
conditional price and stop-price requirements, short-circuiting with
`False` and one error log line at the first failing check. -/
def validate_inputs (c : Client) (symbol : String) (quantity : ℚ)
    (side : String) (order_type : String) (kwargs : Kwargs) : ValidationRun :=
  if strUpper side ∉ valid_sides then
    ⟨false, 0, ["Invalid side: " ++ side ++ ". Must be one of [BUY, SELL]"]⟩
  else if strUpper order_type ∉ valid_types then
    ⟨false, 0, ["Invalid order type: " ++ order_type ++
      ". Must be one of [MARKET, LIMIT, STOP_LIMIT]"]⟩
  else if quantity ≤ 0 then
    ⟨false, 0, ["Quantity must be positive"]⟩
  else
    match c.futures_exchange_info with
    | .error e => ⟨false, 1, ["Error validating symbol: " ++ e]⟩
    | .ok symbols =>
      if symbol ∉ symbols then
        ⟨false, 1, ["Invalid symbol: " ++ symbol]⟩
      else if (strUpper order_type == "LIMIT" || strUpper order_type == "STOP_LIMIT")
          && priceMissingOrNonpos kwargs.price then
        ⟨false, 1, ["Limit price required for LIMIT and STOP_LIMIT orders"]⟩
      else if strUpper order_type == "STOP_LIMIT"
          && priceMissingOrNonpos kwargs.stop_price then
        ⟨false, 1, ["Stop price required for STOP_LIMIT orders"]⟩
      else
        ⟨true, 1, []⟩

/-- The log line an exception produces in a placement operation:
the category named in the message, as in the three `except` clauses. -/
def categoryLog (ctx : String) (e : ExcKind) : String :=
  match e with
  | .apiError m => "Binance API Error in " ++ ctx ++ ": " ++ m
  | .orderError m => "Binance Order Error in " ++ ctx ++ ": " ++ m
  | .otherError m => "Unexpected error in " ++ ctx ++ ": " ++ m

/-- The keyword arguments `place_market_order` passes to
`futures_create_order`: symbol, side, type MARKET, quantity; no price,
stop price or time-in-force keyword. -/
def marketParams (symbol side : String) (quantity : ℚ) : CreateOrderParams :=
  ⟨symbol, side, "MARKET", quantity, none, none, none⟩

/-- The keyword arguments `place_limit_order` passes to
`futures_create_order`: type LIMIT, the price, and timeInForce GTC. -/
def limitParams (symbol side : String) (quantity price : ℚ) : CreateOrderParams :=
  ⟨symbol, side, "LIMIT", quantity, some price, none, some "GTC"⟩

/-- The keyword arguments `place_stop_limit_order` passes to
`futures_create_order`: type STOP, the price, the stop price, and
timeInForce GTC. -/
def stopLimitParams (symbol side : String) (quantity price stop_price : ℚ) :
    CreateOrderParams :=
  ⟨symbol, side, "STOP", quantity, some price, some stop_price, some "GTC"⟩

/-- `place_market_order` of `src/bot.py` (lines 100–133): one
`futures_create_order` call with type MARKET; any raised exception is
caught, logged with its category, and converted to `None`. -/
def place_market_order (c : Client) (symbol side : String) (quantity : ℚ) :
    DispatchRun :=
  let params := marketParams symbol side quantity
  let infoLog := "Placing market order: " ++ side ++ " " ++ toString quantity
    ++ " " ++ symbol
  match c.futures_create_order params with
  | .ok order => ⟨some order, [params], [infoLog, "Market order placed successfully"]⟩
  | .error e => ⟨none, [params], [infoLog, categoryLog "market order" e]⟩

/-- `place_limit_order` of `src/bot.py` (lines 135–171): one
`futures_create_order` call with type LIMIT, price and timeInForce GTC;
any raised exception is caught, logged with its category, and converted
to `None`. -/
def place_limit_order (c : Client) (symbol side : String) (quantity price : ℚ) :
    DispatchRun :=
  let params := limitParams symbol side quantity price
  let infoLog := "Placing limit order: " ++ side ++ " " ++ toString quantity
    ++ " " ++ symbol ++ " @ " ++ toString price
  match c.futures_create_order params with
  | .ok order => ⟨some order, [params], [infoLog, "Limit order placed successfully"]⟩
  | .error e => ⟨none, [params], [infoLog, categoryLog "limit order" e]⟩

/-- `place_stop_limit_order` of `src/bot.py` (lines 173–211): one
`futures_create_order` call with type STOP, price, stopPrice and
timeInForce GTC; any raised exception is caught, logged with its
category, and converted to `None`. -/
def place_stop_limit_order (c : Client) (symbol side : String)
    (quantity price stop_price : ℚ) : DispatchRun :=
  let params := stopLimitParams symbol side quantity price stop_price
  let infoLog := "Placing stop-limit order: " ++ side ++ " " ++ toString quantity
    ++ " " ++ symbol ++ " @ " ++ toString price ++ " (stop: "
    ++ toString stop_price ++ ")"
  match c.futures_create_order params with
  | .ok order =>
    ⟨some order, [params], [infoLog, "Stop-limit order placed successfully"]⟩
  | .error e => ⟨none, [params], [infoLog, categoryLog "stop-limit order" e]⟩

/-- `get_account_balance` of `src/bot.py` (lines 232–248): returns the
balance of the first entry with asset USDT, `0.0` when no such entry
exists, and `0.0` when the balance lookup raises. -/
def get_account_balance (c : Client) : ℚ :=
  match c.futures_account_balance with
  | .error _ => 0
  | .ok balance =>
    match balance.find? (fun item => item.asset == "USDT") with
    | some usdt_balance => usdt_balance.balance
    | none => 0

/-- `get_order_status` of `src/bot.py` (lines 213–230): fetches an order
record by symbol and order id, converting any raised exception to `None`. -/
def get_order_status (c : Client) (symbol : String) (order_id : Nat) :
    Option OrderRecord :=
  match c.futures_get_order symbol order_id with
  | .ok status => some status
  | .error _ => none

/-- `place_order` of `src/bot.py` (lines 250–288): validates the inputs,
returns `None` without dispatching when validation fails, and otherwise
dispatches on the uppercased order type, re-checking the presence of the
price keys in the LIMIT and STOP_LIMIT branches. -/
def place_order (c : Client) (symbol side order_type : String) (quantity : ℚ)
    (kwargs : Kwargs) : DispatchRun :=
  let v := validate_inputs c symbol quantity side order_type kwargs
  if v.result = false then
    ⟨none, [], v.logs⟩
  else
    let ot := strUpper order_type
    if ot = "MARKET" then
      let d := place_market_order c symbol side quantity
      ⟨d.result, d.calls, v.logs ++ d.logs⟩
    else if ot = "LIMIT" then
      match kwargs.price with
      | none => ⟨none, [], v.logs ++ ["Price required for limit orders"]⟩
      | some p =>
        let d := place_limit_order c symbol side quantity p
        ⟨d.result, d.calls, v.logs ++ d.logs⟩
    else if ot = "STOP_LIMIT" then
      match kwargs.price, kwargs.stop_price with
      | some p, some sp =>
        let d := place_stop_limit_order c symbol side quantity p sp
        ⟨d.result, d.calls, v.logs ++ d.logs⟩
      | _, _ =>
        ⟨none, [], v.logs ++ ["Price and stop_price required for stop-limit orders"]⟩
    else
      ⟨none, [], v.logs ++ ["Unsupported order type: " ++ ot]⟩

/-- A concrete healthy exchange client used in witnesses: the lookup
succeeds, BTCUSDT is listed, and order creation succeeds. -/
def testClient : Client where
  futures_exchange_info := .ok ["BTCUSDT", "ETHUSDT"]
  futures_create_order := fun _ => .ok ⟨12345, "NEW"⟩
  futures_account_balance := .ok [⟨"BTC", 2⟩, ⟨"USDT", 1000⟩]
  futures_get_order := fun _ o => .ok ⟨o, "FILLED"⟩

/-- A concrete client whose order creation always raises a
`BinanceAPIException`, used in witnesses for the error-handling claims. -/
def apiFailClient : Client where
  futures_exchange_info := .ok ["BTCUSDT", "ETHUSDT"]
  futures_create_order := fun _ => .error (.apiError "rejected")
  futures_account_balance := .error "timeout"
  futures_get_order := fun _ _ => .error "timeout"

/-- A concrete client whose exchange-info lookup raises, used in
witnesses for the symbol-validation claims. -/
def infoErrClient : Client where
  futures_exchange_info := .error "http 500"
  futures_create_order := fun _ => .ok ⟨12345, "NEW"⟩
  futures_account_balance := .ok []
  futures_get_order := fun _ o => .ok ⟨o, "NEW"⟩

/-- A concrete client whose balances response has no USDT entry. -/
def noUsdtClient : Client where
  futures_exchange_info := .ok ["BTCUSDT"]
  futures_create_order := fun _ => .ok ⟨12345, "NEW"⟩
  futures_account_balance := .ok [⟨"BTC", 2⟩, ⟨"ETH", 5⟩]
  futures_get_order := fun _ o => .ok ⟨o, "NEW"⟩

/-! ## Helper lemmas -/

theorem priceMissingOrNonpos_false_iff (p : Option ℚ) :
    priceMissingOrNonpos p = false ↔ ∃ v, p = some v ∧ 0 < v := by
  cases p <;> simp [priceMissingOrNonpos, not_le]

theorem priceMissingOrNonpos_true_iff (p : Option ℚ) :
    priceMissingOrNonpos p = true ↔ ∀ v, p = some v → v ≤ 0 := by
  cases p <;> simp [priceMissingOrNonpos]

/-- Characterization of a positive validation outcome: all six checks of
`validate_inputs` hold. -/
theorem validate_true_iff (c : Client) (symbol : String) (quantity : ℚ)
    (side order_type : String) (kwargs : Kwargs) :
    (validate_inputs c symbol quantity side order_type kwargs).result = true ↔
      strUpper side ∈ valid_sides ∧ strUpper order_type ∈ valid_types ∧
      0 < quantity ∧
      (∃ syms, c.futures_exchange_info = .ok syms ∧ symbol ∈ syms) ∧
      ((strUpper order_type = "LIMIT" ∨ strUpper order_type = "STOP_LIMIT") →
        ∃ p, kwargs.price = some p ∧ 0 < p) ∧
      (strUpper order_type = "STOP_LIMIT" →
        ∃ sp, kwargs.stop_price = some sp ∧ 0 < sp) := by
  unfold validate_inputs
  split
  · simp_all
  split
  · simp_all
  split
  · simp_all [not_lt]
  split
  · rename_i heq
    simp [heq]
  rename_i syms heq
  split
  · simp_all [heq]
  split
  · rename_i hc
    simp only [Bool.and_eq_true, Bool.or_eq_true, beq_iff_eq] at hc
    obtain ⟨hor, hpm⟩ := hc
    rw [priceMissingOrNonpos_true_iff] at hpm
    constructor
    · intro h; simp at h
    · rintro ⟨-, -, -, -, hp, -⟩
      rcases hp hor with ⟨v, hv, hvpos⟩
      exact absurd (hpm v hv) (not_le.mpr hvpos)
  split
  · rename_i hc
    simp only [Bool.and_eq_true, beq_iff_eq] at hc
    obtain ⟨hsl, hpm⟩ := hc
    rw [priceMissingOrNonpos_true_iff] at hpm
    constructor
    · intro h; simp at h
    · rintro ⟨-, -, -, -, -, hsp⟩
      rcases hsp hsl with ⟨v, hv, hvpos⟩
      exact absurd (hpm v hv) (not_le.mpr hvpos)
  · rename_i hside htype hq hx hsym hc1 hc2
    simp only [Bool.and_eq_true, Bool.or_eq_true, beq_iff_eq, not_and,
      Bool.not_eq_true] at hc1 hc2
    simp only [not_not] at hside hsym
    constructor
    · intro _
      refine ⟨hside, not_not.mp htype, not_le.mp hq, ⟨syms, heq, hsym⟩, ?_, ?_⟩
      · intro hor
        exact (priceMissingOrNonpos_false_iff _).mp (hc1 hor)
      · intro hsl
        exact (priceMissingOrNonpos_false_iff _).mp (hc2 hsl)
    · intro _; rfl

/-! ## Claim theorems -/

/-- C1: `place_order` dispatches a placement operation only after a
positive `validate_inputs` outcome; whenever validation fails it returns
`None` and issues no `futures_create_order` call. -/
theorem place_order_requires_validation (c : Client) (symbol side order_type : String)
    (quantity : ℚ) (kwargs : Kwargs)
    (h : (validate_inputs c symbol quantity side order_type kwargs).result = false) :
    (place_order c symbol side order_type quantity kwargs).result = none ∧
    (place_order c symbol side order_type quantity kwargs).calls = [] := by
  unfold place_order
  simp [h]

theorem place_order_requires_validation_witness :
    (validate_inputs testClient "BTCUSDT" 1 "HOLD" "MARKET" ⟨none, none⟩).result = false ∧
    (place_order testClient "BTCUSDT" "HOLD" "MARKET" 1 ⟨none, none⟩).result = none ∧
    (place_order testClient "BTCUSDT" "HOLD" "MARKET" 1 ⟨none, none⟩).calls = [] :=
  ⟨by decide,
   place_order_requires_validation testClient "BTCUSDT" "HOLD" "MARKET" 1 ⟨none, none⟩ (by decide)⟩

/-- C2: every placement operation catches any exception raised by
`futures_create_order` — API-level, order-level, or other — returns
`None`, and logs the failure with its category; no exception propagates. -/
theorem placement_catches_all_exceptions (c : Client) (symbol side : String)
    (quantity price stop_price : ℚ) (e : ExcKind) :
    (c.futures_create_order (marketParams symbol side quantity) = .error e →
      (place_market_order c symbol side quantity).result = none ∧
      categoryLog "market order" e ∈ (place_market_order c symbol side quantity).logs) ∧
    (c.futures_create_order (limitParams symbol side quantity price) = .error e →
      (place_limit_order c symbol side quantity price).result = none ∧
      categoryLog "limit order" e ∈ (place_limit_order c symbol side quantity price).logs) ∧
    (c.futures_create_order (stopLimitParams symbol side quantity price stop_price) = .error e →
      (place_stop_limit_order c symbol side quantity price stop_price).result = none ∧
      categoryLog "stop-limit order" e ∈
        (place_stop_limit_order c symbol side quantity price stop_price).logs) := by
  refine ⟨fun h => ?_, fun h => ?_, fun h => ?_⟩
  · unfold place_market_order
    simp [h]
  · unfold place_limit_order
    simp [h]
  · unfold place_stop_limit_order
    simp [h]

theorem placement_catches_all_exceptions_witness :
    ((place_market_order apiFailClient "BTCUSDT" "BUY" 1).result = none ∧
      categoryLog "market order" (.apiError "rejected") ∈
        (place_market_order apiFailClient "BTCUSDT" "BUY" 1).logs) ∧
    ((place_limit_order apiFailClient "BTCUSDT" "BUY" 1 2).result = none ∧
      categoryLog "limit order" (.apiError "rejected") ∈
        (place_limit_order apiFailClient "BTCUSDT" "BUY" 1 2).logs) ∧
    ((place_stop_limit_order apiFailClient "BTCUSDT" "BUY" 1 2 3).result = none ∧
      categoryLog "stop-limit order" (.apiError "rejected") ∈
        (place_stop_limit_order apiFailClient "BTCUSDT" "BUY" 1 2 3).logs) :=
  ⟨(placement_catches_all_exceptions apiFailClient "BTCUSDT" "BUY" 1 2 3
      (.apiError "rejected")).1 rfl,
   (placement_catches_all_exceptions apiFailClient "BTCUSDT" "BUY" 1 2 3
      (.apiError "rejected")).2.1 rfl,
   (placement_catches_all_exceptions apiFailClient "BTCUSDT" "BUY" 1 2 3
      (.apiError "rejected")).2.2 rfl⟩

/-- C3: for a validated MARKET request, `place_order` issues exactly one
`futures_create_order` call carrying the symbol, side, quantity and type
MARKET, with no price or stop-price field, and on success returns the
collaborator's response unchanged. -/
theorem market_dispatch_exact (c : Client) (symbol side order_type : String)
    (quantity : ℚ) (kwargs : Kwargs)
    (hv : (validate_inputs c symbol quantity side order_type kwargs).result = true)
    (hm : strUpper order_type = "MARKET") :
    (place_order c symbol side order_type quantity kwargs).calls =
      [marketParams symbol side quantity] ∧
    (marketParams symbol side quantity).symbol = symbol ∧
    (marketParams symbol side quantity).side = side ∧
    (marketParams symbol side quantity).quantity = quantity ∧
    (marketParams symbol side quantity).type = "MARKET" ∧
    (marketParams symbol side quantity).price = none ∧
    (marketParams symbol side quantity).stopPrice = none ∧
    ∀ r, c.futures_create_order (marketParams symbol side quantity) = .ok r →
      (place_order c symbol side order_type quantity kwargs).result = some r := by
  cases hcr : c.futures_create_order (marketParams symbol side quantity) with
  | ok r =>
    unfold place_order place_market_order
    simp only [marketParams] at hcr
    simp [hv, hm, hcr, marketParams]
  | error e =>
    unfold place_order place_market_order
    simp only [marketParams] at hcr
    simp [hv, hm, hcr, marketParams]

theorem market_dispatch_exact_witness :
    (place_order testClient "BTCUSDT" "BUY" "MARKET" 1 ⟨none, none⟩).calls =
      [marketParams "BTCUSDT" "BUY" 1] ∧
    (place_order testClient "BTCUSDT" "BUY" "MARKET" 1 ⟨none, none⟩).result =
      some ⟨12345, "NEW"⟩ :=
  ⟨(market_dispatch_exact testClient "BTCUSDT" "BUY" "MARKET" 1 ⟨none, none⟩
      (by decide) (by decide)).1,
   (market_dispatch_exact testClient "BTCUSDT" "BUY" "MARKET" 1 ⟨none, none⟩
      (by decide) (by decide)).2.2.2.2.2.2.2 ⟨12345, "NEW"⟩ rfl⟩

/-- C4: for a validated LIMIT request, `place_order` issues one
`futures_create_order` call with type LIMIT, the request's price and a
GTC time-in-force flag; for a validated STOP_LIMIT request, one call
with type STOP, the request's price and stop price, and the same GTC
flag. -/
theorem limit_stop_dispatch_exact (c : Client) (symbol side order_type : String)
    (quantity p sp : ℚ) (kwargs : Kwargs)
    (hv : (validate_inputs c symbol quantity side order_type kwargs).result = true) :
    (strUpper order_type = "LIMIT" → kwargs.price = some p →
      (place_order c symbol side order_type quantity kwargs).calls =
        [limitParams symbol side quantity p] ∧
      (limitParams symbol side quantity p).symbol = symbol ∧
      (limitParams symbol side quantity p).side = side ∧
      (limitParams symbol side quantity p).quantity = quantity ∧
      (limitParams symbol side quantity p).type = "LIMIT" ∧
      (limitParams symbol side quantity p).price = some p ∧
      (limitParams symbol side quantity p).timeInForce = some "GTC") ∧
    (strUpper order_type = "STOP_LIMIT" → kwargs.price = some p →
      kwargs.stop_price = some sp →
      (place_order c symbol side order_type quantity kwargs).calls =
        [stopLimitParams symbol side quantity p sp] ∧
      (stopLimitParams symbol side quantity p sp).symbol = symbol ∧
      (stopLimitParams symbol side quantity p sp).side = side ∧
      (stopLimitParams symbol side quantity p sp).quantity = quantity ∧
      (stopLimitParams symbol side quantity p sp).type = "STOP" ∧
      (stopLimitParams symbol side quantity p sp).price = some p ∧
      (stopLimitParams symbol side quantity p sp).stopPrice = some sp ∧
      (stopLimitParams symbol side quantity p sp).timeInForce = some "GTC") := by
  constructor
  · intro hl hp
    cases hcr : c.futures_create_order (limitParams symbol side quantity p) with
    | ok r =>
      unfold place_order place_limit_order
      simp only [limitParams] at hcr
      simp [hv, hl, hp, hcr, limitParams]
    | error e =>
      unfold place_order place_limit_order
      simp only [limitParams] at hcr
      simp [hv, hl, hp, hcr, limitParams]
  · intro hsl hp hsp
    cases hcr : c.futures_create_order (stopLimitParams symbol side quantity p sp) with
    | ok r =>
      unfold place_order place_stop_limit_order
      simp only [stopLimitParams] at hcr
      simp [hv, hsl, hp, hsp, hcr, stopLimitParams]
    | error e =>
      unfold place_order place_stop_limit_order
      simp only [stopLimitParams] at hcr
      simp [hv, hsl, hp, hsp, hcr, stopLimitParams]

theorem limit_stop_dispatch_exact_witness :
    (place_order testClient "BTCUSDT" "SELL" "LIMIT" 1 ⟨some 50000, none⟩).calls =
      [limitParams "BTCUSDT" "SELL" 1 50000] ∧
    (place_order testClient "BTCUSDT" "BUY" "STOP_LIMIT" 1 ⟨some 50000, some 49000⟩).calls =
      [stopLimitParams "BTCUSDT" "BUY" 1 50000 49000] :=
  ⟨((limit_stop_dispatch_exact testClient "BTCUSDT" "SELL" "LIMIT" 1 50000 0
      ⟨some 50000, none⟩ (by decide)).1 (by decide) rfl).1,
   ((limit_stop_dispatch_exact testClient "BTCUSDT" "BUY" "STOP_LIMIT" 1 50000 49000
      ⟨some 50000, some 49000⟩ (by decide)).2 (by decide) rfl rfl).1⟩

/-- C5: validation fails for every LIMIT or STOP_LIMIT request whose
price is absent or non-positive, and for every STOP_LIMIT request with a
valid price whose stop price is absent or non-positive. -/
theorem validate_rejects_bad_prices (c : Client) (symbol : String) (quantity : ℚ)
    (side order_type : String) (kwargs : Kwargs) :
    ((strUpper order_type = "LIMIT" ∨ strUpper order_type = "STOP_LIMIT") →
      (kwargs.price = none ∨ ∃ p, kwargs.price = some p ∧ p ≤ 0) →
      (validate_inputs c symbol quantity side order_type kwargs).result = false) ∧
    (strUpper order_type = "STOP_LIMIT" →
      (∃ p, kwargs.price = some p ∧ 0 < p) →
      (kwargs.stop_price = none ∨ ∃ sp, kwargs.stop_price = some sp ∧ sp ≤ 0) →
      (validate_inputs c symbol quantity side order_type kwargs).result = false) := by
  constructor
  · intro hor hbad
    cases hres : (validate_inputs c symbol quantity side order_type kwargs).result
    · rfl
    · exfalso
      rcases (validate_true_iff c symbol quantity side order_type kwargs).mp hres
        with ⟨-, -, -, -, hp, -⟩
      rcases hp hor with ⟨p, hps, hppos⟩
      rcases hbad with hnone | ⟨q, hq, hqle⟩
      · rw [hnone] at hps; cases hps
      · rw [hq] at hps
        injection hps with h
        exact absurd hppos (not_lt.mpr (h ▸ hqle))
  · intro hsl _ hbad
    cases hres : (validate_inputs c symbol quantity side order_type kwargs).result
    · rfl
    · exfalso
      rcases (validate_true_iff c symbol quantity side order_type kwargs).mp hres
        with ⟨-, -, -, -, -, hsp⟩
      rcases hsp hsl with ⟨v, hv, hvpos⟩
      rcases hbad with hnone | ⟨w, hw, hwle⟩
      · rw [hnone] at hv; cases hv
      · rw [hw] at hv
        injection hv with h
        exact absurd hvpos (not_lt.mpr (h ▸ hwle))

theorem validate_rejects_bad_prices_witness :
    (validate_inputs testClient "BTCUSDT" 1 "BUY" "LIMIT" ⟨none, none⟩).result = false ∧
    (validate_inputs testClient "BTCUSDT" 1 "BUY" "STOP_LIMIT"
      ⟨some 50000, some 0⟩).result = false :=
  ⟨(validate_rejects_bad_prices testClient "BTCUSDT" 1 "BUY" "LIMIT" ⟨none, none⟩).1
      (by decide) (Or.inl rfl),
   (validate_rejects_bad_prices testClient "BTCUSDT" 1 "BUY" "STOP_LIMIT"
      ⟨some 50000, some 0⟩).2 (by decide) ⟨50000, rfl, by decide⟩
      (Or.inr ⟨0, rfl, by decide⟩)⟩

/-- C6: validation fails whenever the symbol is not in the instrument
list returned by the exchange lookup, or the lookup itself raises; the
lookup error is a validation failure, never a propagated exception
(`validate_inputs` is total). -/
theorem validate_requires_listed_symbol (c : Client) (symbol : String) (quantity : ℚ)
    (side order_type : String) (kwargs : Kwargs) :
    (∀ e, c.futures_exchange_info = .error e →
      (validate_inputs c symbol quantity side order_type kwargs).result = false) ∧
    (∀ syms, c.futures_exchange_info = .ok syms → symbol ∉ syms →
      (validate_inputs c symbol quantity side order_type kwargs).result = false) := by
  constructor
  · intro e he
    cases hres : (validate_inputs c symbol quantity side order_type kwargs).result
    · rfl
    · exfalso
      rcases (validate_true_iff c symbol quantity side order_type kwargs).mp hres
        with ⟨-, -, -, ⟨syms, heq, -⟩, -, -⟩
      rw [he] at heq; cases heq
  · intro syms heq hnot
    cases hres : (validate_inputs c symbol quantity side order_type kwargs).result
    · rfl
    · exfalso
      rcases (validate_true_iff c symbol quantity side order_type kwargs).mp hres
        with ⟨-, -, -, ⟨syms2, heq2, hmem⟩, -, -⟩
      rw [heq] at heq2
      injection heq2 with h
      exact hnot (h ▸ hmem)

theorem validate_requires_listed_symbol_witness :
    (validate_inputs infoErrClient "BTCUSDT" 1 "BUY" "MARKET" ⟨none, none⟩).result = false ∧
    (validate_inputs testClient "DOGEUSDT" 1 "BUY" "MARKET" ⟨none, none⟩).result = false :=
  ⟨(validate_requires_listed_symbol infoErrClient "BTCUSDT" 1 "BUY" "MARKET"
      ⟨none, none⟩).1 "http 500" rfl,
   (validate_requires_listed_symbol testClient "DOGEUSDT" 1 "BUY" "MARKET"
      ⟨none, none⟩).2 ["BTCUSDT", "ETHUSDT"] rfl (by decide)⟩

/-- C7: the validation checks run in the stated order — side, order
type, quantity, symbol existence, price, stop price — short-circuiting at
the first failure: each early failure returns exactly its own log line
with no exchange lookup; the lookup happens iff the first three checks
pass; in particular a non-positive quantity fails without any lookup. -/
theorem validate_checks_in_order (c : Client) (symbol : String) (quantity : ℚ)
    (side order_type : String) (kwargs : Kwargs) :
    (strUpper side ∉ valid_sides →
      validate_inputs c symbol quantity side order_type kwargs =
        ⟨false, 0, ["Invalid side: " ++ side ++ ". Must be one of [BUY, SELL]"]⟩) ∧
    (strUpper side ∈ valid_sides → strUpper order_type ∉ valid_types →
      validate_inputs c symbol quantity side order_type kwargs =
        ⟨false, 0, ["Invalid order type: " ++ order_type ++
          ". Must be one of [MARKET, LIMIT, STOP_LIMIT]"]⟩) ∧
    (strUpper side ∈ valid_sides → strUpper order_type ∈ valid_types → quantity ≤ 0 →
      validate_inputs c symbol quantity side order_type kwargs =
        ⟨false, 0, ["Quantity must be positive"]⟩) ∧
    (quantity ≤ 0 →
      (validate_inputs c symbol quantity side order_type kwargs).result = false ∧
      (validate_inputs c symbol quantity side order_type kwargs).lookupCalls = 0) ∧
    ((validate_inputs c symbol quantity side order_type kwargs).lookupCalls = 1 ↔
      strUpper side ∈ valid_sides ∧ strUpper order_type ∈ valid_types ∧ 0 < quantity) ∧
    (strUpper side ∈ valid_sides → strUpper order_type ∈ valid_types → 0 < quantity →
      ∀ e, c.futures_exchange_info = .error e →
        validate_inputs c symbol quantity side order_type kwargs =
          ⟨false, 1, ["Error validating symbol: " ++ e]⟩) ∧
    (strUpper side ∈ valid_sides → strUpper order_type ∈ valid_types → 0 < quantity →
      ∀ syms, c.futures_exchange_info = .ok syms → symbol ∉ syms →
        validate_inputs c symbol quantity side order_type kwargs =
          ⟨false, 1, ["Invalid symbol: " ++ symbol]⟩) ∧
    (strUpper side ∈ valid_sides → strUpper order_type ∈ valid_types → 0 < quantity →
      ∀ syms, c.futures_exchange_info = .ok syms → symbol ∈ syms →
        (strUpper order_type = "LIMIT" ∨ strUpper order_type = "STOP_LIMIT") →
        priceMissingOrNonpos kwargs.price = true →
        validate_inputs c symbol quantity side order_type kwargs =
          ⟨false, 1, ["Limit price required for LIMIT and STOP_LIMIT orders"]⟩) ∧
    (strUpper side ∈ valid_sides → strUpper order_type ∈ valid_types → 0 < quantity →
      ∀ syms, c.futures_exchange_info = .ok syms → symbol ∈ syms →
        strUpper order_type = "STOP_LIMIT" →
        priceMissingOrNonpos kwargs.price = false →
        priceMissingOrNonpos kwargs.stop_price = true →
        validate_inputs c symbol quantity side order_type kwargs =
          ⟨false, 1, ["Stop price required for STOP_LIMIT orders"]⟩) := by
  refine ⟨?_, ?_, ?_, ?_, ?_, ?_, ?_, ?_, ?_⟩
  · intro h
    unfold validate_inputs
    simp [h]
  · intro hs ht
    unfold validate_inputs
    simp [hs, ht]
  · intro hs ht hq
    unfold validate_inputs
    simp [hs, ht, hq]
  · intro hq
    unfold validate_inputs
    split
    · exact ⟨rfl, rfl⟩
    split
    · exact ⟨rfl, rfl⟩
    · exact ⟨rfl, rfl⟩
  · unfold validate_inputs
    (repeat' split) <;> simp_all [not_lt]
  · intro hs ht hq e he
    unfold validate_inputs
    simp [hs, ht, not_le.mpr hq, he]
  · intro hs ht hq syms heq hnot
    unfold validate_inputs
    simp [hs, ht, not_le.mpr hq, heq, hnot]
  · intro hs ht hq syms heq hmem hor hpm
    unfold validate_inputs
    rcases hor with h | h <;>
      simp [hs, ht, not_le.mpr hq, heq, hmem, h, hpm, valid_types]
  · intro hs ht hq syms heq hmem hsl hpf hpst
    unfold validate_inputs
    simp [hs, ht, not_le.mpr hq, heq, hmem, hsl, hpf, hpst, valid_types]

theorem validate_checks_in_order_witness :
    (validate_inputs testClient "BTCUSDT" 0 "HOLD" "FOO" ⟨none, none⟩).result = false ∧
    (validate_inputs testClient "BTCUSDT" 0 "HOLD" "FOO" ⟨none, none⟩).lookupCalls = 0 ∧
    validate_inputs infoErrClient "BTCUSDT" (-3) "BUY" "LIMIT" ⟨none, none⟩ =
      ⟨false, 0, ["Quantity must be positive"]⟩ :=
  ⟨((validate_checks_in_order testClient "BTCUSDT" 0 "HOLD" "FOO" ⟨none, none⟩).2.2.2.1
      (by decide)).1,
   ((validate_checks_in_order testClient "BTCUSDT" 0 "HOLD" "FOO" ⟨none, none⟩).2.2.2.1
      (by decide)).2,
   (validate_checks_in_order infoErrClient "BTCUSDT" (-3) "BUY" "LIMIT" ⟨none, none⟩).2.2.1
      (by decide) (by decide) (by decide)⟩

/-- C8: `get_account_balance` returns 0.0 when the balances response has
no USDT entry or when the lookup raises, and otherwise returns the USDT
entry's balance. -/
theorem get_account_balance_spec (c : Client) :
    (∀ e, c.futures_account_balance = .error e → get_account_balance c = 0) ∧
    (∀ entries, c.futures_account_balance = .ok entries →
      ((∀ item ∈ entries, item.asset ≠ "USDT") → get_account_balance c = 0) ∧
      ∀ item, entries.find? (fun i => i.asset == "USDT") = some item →
        get_account_balance c = item.balance) := by
  constructor
  · intro e he
    unfold get_account_balance
    simp [he]
  · intro entries heq
    constructor
    · intro habs
      have hfind : entries.find? (fun i => i.asset == "USDT") = none := by
        rw [List.find?_eq_none]
        intro x hx
        simp [habs x hx]
      unfold get_account_balance
      simp [heq, hfind]
    · intro item hfind
      unfold get_account_balance
      simp [heq, hfind]

theorem get_account_balance_spec_witness :
    get_account_balance apiFailClient = 0 ∧
    get_account_balance noUsdtClient = 0 ∧
    get_account_balance testClient = 1000 :=
  ⟨(get_account_balance_spec apiFailClient).1 "timeout" rfl,
   ((get_account_balance_spec noUsdtClient).2 [⟨"BTC", 2⟩, ⟨"ETH", 5⟩] rfl).1 (by decide),
   ((get_account_balance_spec testClient).2 [⟨"BTC", 2⟩, ⟨"USDT", 1000⟩] rfl).2
      ⟨"USDT", 1000⟩ (by decide)⟩

/-- C9 counterexample: the claim that `validate_inputs` returns a
boolean plus a human-readable reason for the outcome fails at a concrete
fully valid request: the function returns the bare boolean `True` and
emits no reason at all (the log, the only carrier of reasons, stays
empty on success). -/
theorem validate_returns_bare_boolean :
    (validate_inputs testClient "BTCUSDT" 1 "BUY" "MARKET" ⟨none, none⟩).result = true ∧
    (validate_inputs testClient "BTCUSDT" 1 "BUY" "MARKET" ⟨none, none⟩).logs = [] := by
  constructor <;> decide

/-- C9 (amended): `validate_inputs` returns a bare boolean; a
human-readable reason accompanies the outcome only on failure — exactly
one log line per failing run — while a successful run emits no reason. -/
theorem validate_reason_only_on_failure (c : Client) (symbol : String) (quantity : ℚ)
    (side order_type : String) (kwargs : Kwargs) :
    ((validate_inputs c symbol quantity side order_type kwargs).result = false →
      ∃ msg, (validate_inputs c symbol quantity side order_type kwargs).logs = [msg]) ∧
    ((validate_inputs c symbol quantity side order_type kwargs).result = true →
      (validate_inputs c symbol quantity side order_type kwargs).logs = []) := by
  unfold validate_inputs
  (repeat' split) <;> simp

theorem validate_reason_only_on_failure_witness :
    (∃ msg, (validate_inputs testClient "BTCUSDT" 1 "HOLD" "MARKET" ⟨none, none⟩).logs = [msg]) ∧
    (validate_inputs testClient "BTCUSDT" 1 "BUY" "MARKET" ⟨none, none⟩).logs = [] :=
  ⟨(validate_reason_only_on_failure testClient "BTCUSDT" 1 "HOLD" "MARKET" ⟨none, none⟩).1
      (by decide),
   (validate_reason_only_on_failure testClient "BTCUSDT" 1 "BUY" "MARKET" ⟨none, none⟩).2
      (by decide)⟩

/-- C10: after a positive validation the re-checks inside `place_order`
are dead code — a LIMIT request has its price present, a STOP_LIMIT
request has price and stop price present, the unsupported-type branch is
unreachable — so `place_order` always issues exactly one
`futures_create_order` call, and can only return `None` because that
call raised. -/
theorem place_order_rechecks_dead (c : Client) (symbol side order_type : String)
    (quantity : ℚ) (kwargs : Kwargs)
    (hv : (validate_inputs c symbol quantity side order_type kwargs).result = true) :
    (strUpper order_type = "LIMIT" → kwargs.price.isSome = true) ∧
    (strUpper order_type = "STOP_LIMIT" →
      kwargs.price.isSome = true ∧ kwargs.stop_price.isSome = true) ∧
    (strUpper order_type = "MARKET" ∨ strUpper order_type = "LIMIT" ∨
      strUpper order_type = "STOP_LIMIT") ∧
    (∃ params, (place_order c symbol side order_type quantity kwargs).calls = [params]) ∧
    ((place_order c symbol side order_type quantity kwargs).result = none →
      ∃ params e,
        (place_order c symbol side order_type quantity kwargs).calls = [params] ∧
        c.futures_create_order params = .error e) := by
  obtain ⟨-, htype, -, -, hpl, hpsl⟩ :=
    (validate_true_iff c symbol quantity side order_type kwargs).mp hv
  have hdisj : strUpper order_type = "MARKET" ∨ strUpper order_type = "LIMIT" ∨
      strUpper order_type = "STOP_LIMIT" := by
    simpa [valid_types] using htype
  have hmain : ∃ params,
      (place_order c symbol side order_type quantity kwargs).calls = [params] ∧
      ((place_order c symbol side order_type quantity kwargs).result = none →
        ∃ e, c.futures_create_order params = .error e) := by
    rcases hdisj with h | h | h
    · cases hcr : c.futures_create_order (marketParams symbol side quantity) with
      | ok r =>
        refine ⟨marketParams symbol side quantity, ?_, ?_⟩ <;>
          (unfold place_order place_market_order
           simp only [marketParams] at hcr
           simp [hv, h, hcr, marketParams])
      | error e =>
        refine ⟨marketParams symbol side quantity, ?_, fun _ => ⟨e, hcr⟩⟩
        unfold place_order place_market_order
        simp only [marketParams] at hcr
        simp [hv, h, hcr, marketParams]
    · obtain ⟨p, hp, -⟩ := hpl (Or.inl h)
      cases hcr : c.futures_create_order (limitParams symbol side quantity p) with
      | ok r =>
        refine ⟨limitParams symbol side quantity p, ?_, ?_⟩ <;>
          (unfold place_order place_limit_order
           simp only [limitParams] at hcr
           simp [hv, h, hp, hcr, limitParams])
      | error e =>
        refine ⟨limitParams symbol side quantity p, ?_, fun _ => ⟨e, hcr⟩⟩
        unfold place_order place_limit_order
        simp only [limitParams] at hcr
        simp [hv, h, hp, hcr, limitParams]
    · obtain ⟨p, hp, -⟩ := hpl (Or.inr h)
      obtain ⟨sp, hsp, -⟩ := hpsl h
      cases hcr : c.futures_create_order (stopLimitParams symbol side quantity p sp) with
      | ok r =>
        refine ⟨stopLimitParams symbol side quantity p sp, ?_, ?_⟩ <;>
          (unfold place_order place_stop_limit_order
           simp only [stopLimitParams] at hcr
           simp [hv, h, hp, hsp, hcr, stopLimitParams])
      | error e =>
        refine ⟨stopLimitParams symbol side quantity p sp, ?_, fun _ => ⟨e, hcr⟩⟩
        unfold place_order place_stop_limit_order
        simp only [stopLimitParams] at hcr
        simp [hv, h, hp, hsp, hcr, stopLimitParams]
  obtain ⟨params, hcalls, himp⟩ := hmain
  refine ⟨?_, ?_, hdisj, ⟨params, hcalls⟩, ?_⟩
  · intro h
    obtain ⟨p, hp, -⟩ := hpl (Or.inl h)
    simp [hp]
  · intro h
    obtain ⟨p, hp, -⟩ := hpl (Or.inr h)
    obtain ⟨sp, hsp, -⟩ := hpsl h
    simp [hp, hsp]
  · intro hnone
    obtain ⟨e, he⟩ := himp hnone
    exact ⟨params, e, hcalls, he⟩

theorem place_order_rechecks_dead_witness :
    (⟨some 50000, some 49000⟩ : Kwargs).price.isSome = true ∧
    (⟨some 50000, some 49000⟩ : Kwargs).stop_price.isSome = true ∧
    (∃ params,
      (place_order apiFailClient "BTCUSDT" "BUY" "STOP_LIMIT" 1
        ⟨some 50000, some 49000⟩).calls = [params]) ∧
    (∃ params e,
      (place_order apiFailClient "BTCUSDT" "BUY" "STOP_LIMIT" 1
        ⟨some 50000, some 49000⟩).calls = [params] ∧
      apiFailClient.futures_create_order params = .error e) :=
  ⟨((place_order_rechecks_dead apiFailClient "BTCUSDT" "BUY" "STOP_LIMIT" 1
      ⟨some 50000, some 49000⟩ (by decide)).2.1 (by decide)).1,
   ((place_order_rechecks_dead apiFailClient "BTCUSDT" "BUY" "STOP_LIMIT" 1
      ⟨some 50000, some 49000⟩ (by decide)).2.1 (by decide)).2,
   (place_order_rechecks_dead apiFailClient "BTCUSDT" "BUY" "STOP_LIMIT" 1
      ⟨some 50000, some 49000⟩ (by decide)).2.2.2.1,
   (place_order_rechecks_dead apiFailClient "BTCUSDT" "BUY" "STOP_LIMIT" 1
      ⟨some 50000, some 49000⟩ (by decide)).2.2.2.2 (by decide)⟩

end TradingBot
